import Mathlib

/-!
Shallow embedding of the IntelliHub multi-provider AI request router:
the modules `hub/services/openrouter.py` and `hub/services/gemini.py`.

Modelling conventions:
* Python strings are Lean `String`s (operated on through `String.data`).
* Python dicts holding JSON payloads are `Dict := List (String × JVal)`
  (keys unique, insertion ordered, as in CPython).
* Python truthiness is `JVal.truthy` / emptiness checks, mirrored per call site.
* `time.time()` is an explicit `Nat` clock supplied by the caller of each
  top-level dispatch; blocking back-off sleeps have no observable effect in
  the model, so they are dropped.
* HTTP traffic is an oracle `world : Nat → HttpOutcome` indexed by the number
  of POST requests issued so far; the state `NetState` counts issued POSTs and
  keeps a ghost log of the model identifier each POST carried.
* The md5 hex digest in `generate_cache_key` is a deterministic injective-use
  post-map of its input string; no claim depends on the digest value, so the
  key is modelled as the joined input string itself.
* Exact interpreter-generated exception texts (`AttributeError`, `TypeError`,
  …) are abstracted to fixed descriptive strings; every claim depends only on
  which branch is taken, never on those texts.
-/

/-! ## Python string semantics helpers -/

/-- Whitespace characters recognised by Python `str.strip` and `re` `\s`
(ASCII range, which is all the sources use). -/
def pyWhite (c : Char) : Bool :=
  c == ' ' || c == '\t' || c == '\n' || c == '\r' || c == '\x0b' || c == '\x0c'

/-- Python `needle in hay` substring test. -/
def pyIn (needle hay : String) : Bool :=
  decide (needle.data <:+: hay.data)

/-- Python `sep.join(xs)`. -/
def joinSep (sep : String) : List String → String
  | [] => ""
  | [a] => a
  | a :: rest => a ++ sep ++ joinSep sep rest

/-- Python `str(x)` for an `Optional[str]`: `None` renders as `"None"`. -/
def optStr : Option String → String
  | some s => s
  | none => "None"

/-- Python `line.strip()` on a char list. -/
def pyStrip (l : List Char) : List Char :=
  ((l.dropWhile pyWhite).reverse.dropWhile pyWhite).reverse

/-- Python `line.rstrip()` on a char list. -/
def pyRstrip (l : List Char) : List Char :=
  (l.reverse.dropWhile pyWhite).reverse

/-- Python `s.strip()` on strings. -/
def pyStripStr (s : String) : String :=
  String.mk (pyStrip s.data)

/-- Python `s.lower()` (ASCII case mapping, which covers everything the
sources compare). -/
def pyLower (s : String) : String :=
  String.mk (s.data.map Char.toLower)

/-- Python `text.split(c)` keeping empty pieces (specialised to one char). -/
def splitOnChar (sep : Char) : List Char → List (List Char)
  | [] => [[]]
  | c :: rest =>
    if c == sep then [] :: splitOnChar sep rest
    else
      match splitOnChar sep rest with
      | [] => [[c]]
      | l :: ls => (c :: l) :: ls

/-! ## JSON-shaped values -/

/-- JSON-shaped Python values as the providers exchange them.  Numbers are
abstracted to integers (the sources never do arithmetic on payload numbers). -/
inductive JVal where
  | null
  | bool (b : Bool)
  | num (n : Int)
  | str (s : String)
  | arr (xs : List JVal)
  | obj (kvs : List (String × JVal))

/-- Python dict carrying JSON values. -/
abbrev Dict := List (String × JVal)

/-- Python truthiness of a JSON-shaped value. -/
def JVal.truthy : JVal → Bool
  | .null => false
  | .bool b => b
  | .num n => !(n == 0)
  | .str s => !s.isEmpty
  | .arr xs => !xs.isEmpty
  | .obj kvs => !kvs.isEmpty

/-- Python `d.get(k)` on a dict (returns `none` for a missing key). -/
def jget (d : Dict) (k : String) : Option JVal :=
  (d.find? (fun kv => kv.1 == k)).map (fun kv => kv.2)

/-- Whether `o` is `Some` of the string `s` (Python `d.get(k) == s` against a
string literal: `None` and non-strings compare unequal). -/
def jvIsStr (o : Option JVal) (s : String) : Bool :=
  match o with
  | some (.str t) => t == s
  | _ => false

/-- Key membership in a JSON object (used to probe for a `cached` flag). -/
def jvHasKey : JVal → String → Bool
  | .obj kvs, k => kvs.any (fun kv => kv.1 == k)
  | _, _ => false

/-- Lookup in a JSON object. -/
def jvGet : JVal → String → Option JVal
  | .obj kvs, k => jget kvs k
  | _, _ => none

/-! ## Markdown cleanup (`clean_markdown_formatting`)

Each `re.sub` pass of the source is modelled as a left-to-right,
non-overlapping scan.  A matcher inspects the suffix at the current position
(plus a flag telling whether a `re.MULTILINE` `^` anchor holds there) and
either declines, or reports the replacement text, the number of consumed
characters minus one, and its updated state.  The driver re-scans neither
replacements nor matched text, exactly like `re.sub`.  Fuel equal to the input
length suffices because every step consumes at least one character. -/

/-- Generic `re.sub` driver.  `atStart` tells whether a MULTILINE `^` anchor
holds at the current position (start of input or just after a newline). -/
def scanSubLn {σ : Type} (m : Bool → σ → List Char → Option (List Char × Nat × σ)) :
    Nat → List Char → Bool → σ → List Char × σ
  | 0, l, _, s => (l, s)
  | _ + 1, [], _, s => ([], s)
  | fuel + 1, c :: rest, atStart, s =>
    match m atStart s (c :: rest) with
    | some (repl, k, s2) =>
      let lastConsumed := List.getD (c :: rest) k c
      let out := scanSubLn m fuel (rest.drop k) (lastConsumed == '\n') s2
      (repl ++ out.1, out.2)
    | none =>
      let out := scanSubLn m fuel rest (c == '\n') s
      (c :: out.1, out.2)

/-- Run a stateful substitution pass over a whole text. -/
def runPassSt {σ : Type} (m : Bool → σ → List Char → Option (List Char × Nat × σ))
    (l : List Char) (s : σ) : List Char × σ :=
  scanSubLn m l.length l true s

/-- Run a stateless substitution pass over a whole text. -/
def runPass (m : Bool → List Char → Option (List Char × Nat)) (l : List Char) : List Char :=
  (scanSubLn (fun b _ t => (m b t).map (fun p => (p.1, p.2, ()))) l.length l true ()).1

/-- The `___CODE_BLOCK_i___` placeholder produced by `save_code_block`. -/
def placeholderChars (i : Nat) : List Char :=
  ("___CODE_BLOCK_" ++ toString i ++ "___").data

/-- Locate the earliest ``` ``` ``` in the list: returns the characters before
it and the characters after it (the non-greedy tail search of the fenced-block
regex). -/
def splitAtTriple : List Char → Option (List Char × List Char)
  | [] => none
  | c :: rest =>
    match c :: rest with
    | '`' :: '`' :: '`' :: after => some ([], after)
    | _ =>
      match splitAtTriple rest with
      | some (pre, after) => some (c :: pre, after)
      | none => none

/-- Matcher for ``` ```[\s\S]*?``` ``` (protect fenced blocks). -/
def fencedM (_ : Bool) (blocks : List (List Char)) (l : List Char) :
    Option (List Char × Nat × List (List Char)) :=
  match l with
  | '`' :: '`' :: '`' :: rest =>
    match splitAtTriple rest with
    | some (interior, _) =>
      let matched := '`' :: '`' :: '`' :: (interior ++ ['`', '`', '`'])
      some (placeholderChars blocks.length, interior.length + 5, blocks ++ [matched])
    | none => none
  | _ => none

/-- Matcher for `` `[^`]+` `` (protect inline code). -/
def inlineM (_ : Bool) (blocks : List (List Char)) (l : List Char) :
    Option (List Char × Nat × List (List Char)) :=
  match l with
  | '`' :: rest =>
    let run := rest.takeWhile (fun c => !(c == '`'))
    if run.isEmpty then none
    else
      match rest.drop run.length with
      | '`' :: _ =>
        let matched := '`' :: (run ++ ['`'])
        some (placeholderChars blocks.length, run.length + 1, blocks ++ [matched])
      | _ => none
  | _ => none

/-- Greedy back-tracking split of the `\s+` run in the header regex: the
largest `k ∈ [1, ws.length]` such that `(.+)` can start right after the first
`k` whitespace characters (the character there exists and is not a newline). -/
def hdrSplit (ws afterW : List Char) : Nat → Option Nat
  | 0 => none
  | km1 + 1 =>
    let k := km1 + 1
    let ok :=
      if k == ws.length then !afterW.isEmpty
      else
        match ws.get? k with
        | some c => !(c == '\n')
        | none => false
    if ok then some k else hdrSplit ws afterW km1

/-- Matcher for `^#{1,6}\s+(.+)$` (MULTILINE), replacement `\n\1\n`. -/
def headerM (atStart : Bool) (l : List Char) : Option (List Char × Nat) :=
  if !atStart then none
  else
    let hashes := l.takeWhile (fun c => c == '#')
    if hashes.length < 1 || hashes.length > 6 then none
    else
      let afterH := l.drop hashes.length
      let ws := afterH.takeWhile pyWhite
      if ws.isEmpty then none
      else
        let afterW := afterH.drop ws.length
        match hdrSplit ws afterW ws.length with
        | none => none
        | some k =>
          let grp := (ws.drop k ++ afterW).takeWhile (fun c => !(c == '\n'))
          some ('\n' :: (grp ++ ['\n']), hashes.length + k + grp.length - 1)

/-- Matcher for a one-character-delimited emphasis pattern `d([^d]+)d`. -/
def delim1M (d : Char) (_ : Bool) (l : List Char) : Option (List Char × Nat) :=
  match l with
  | c :: rest =>
    if c == d then
      let run := rest.takeWhile (fun x => !(x == d))
      if run.isEmpty then none
      else
        match rest.drop run.length with
        | x :: _ => if x == d then some (run, run.length + 1) else none
        | [] => none
    else none
  | [] => none

/-- Matcher for `dd([^d]+)dd`. -/
def delim2M (d : Char) (_ : Bool) (l : List Char) : Option (List Char × Nat) :=
  match l with
  | a :: b :: rest =>
    if a == d && b == d then
      let run := rest.takeWhile (fun x => !(x == d))
      if run.isEmpty then none
      else
        match rest.drop run.length with
        | x :: y :: _ => if x == d && y == d then some (run, run.length + 3) else none
        | _ => none
    else none
  | _ => none

/-- Matcher for `ddd([^d]+)ddd`. -/
def delim3M (d : Char) (_ : Bool) (l : List Char) : Option (List Char × Nat) :=
  match l with
  | a :: b :: c :: rest =>
    if a == d && b == d && c == d then
      let run := rest.takeWhile (fun x => !(x == d))
      if run.isEmpty then none
      else
        match rest.drop run.length with
        | x :: y :: z :: _ =>
          if x == d && y == d && z == d then some (run, run.length + 5) else none
        | _ => none
    else none
  | _ => none

/-- Matcher for `^[\s]*[-•*]\s+` (MULTILINE), replacement `• `. -/
def bulletM (atStart : Bool) (l : List Char) : Option (List Char × Nat) :=
  if !atStart then none
  else
    let ws := l.takeWhile pyWhite
    match l.drop ws.length with
    | c :: rest2 =>
      if c == '-' || c == '•' || c == '*' then
        let ws2 := rest2.takeWhile pyWhite
        if ws2.isEmpty then none
        else some (['•', ' '], ws.length + ws2.length)
      else none
    | [] => none

/-- Matcher for `^[\s]*(\d+)\.\s+` (MULTILINE), replacement `\1. `. -/
def numberM (atStart : Bool) (l : List Char) : Option (List Char × Nat) :=
  if !atStart then none
  else
    let ws := l.takeWhile pyWhite
    let afterWs := l.drop ws.length
    let digits := afterWs.takeWhile (fun c => c.isDigit)
    if digits.isEmpty then none
    else
      match afterWs.drop digits.length with
      | '.' :: rest2 =>
        let ws2 := rest2.takeWhile pyWhite
        if ws2.isEmpty then none
        else some (digits ++ ['.', ' '], ws.length + digits.length + ws2.length)
      | _ => none

/-- Matcher for `\n{3,}`, replacement `\n\n`. -/
def nlCollapseM (_ : Bool) (l : List Char) : Option (List Char × Nat) :=
  let run := l.takeWhile (fun c => c == '\n')
  if run.length ≥ 3 then some (['\n', '\n'], run.length - 1) else none

/-- Python `text.replace(pat, repl)`, all occurrences, left to right. -/
def replaceAllF : Nat → List Char → List Char → List Char → List Char
  | 0, l, _, _ => l
  | _ + 1, [], _, _ => []
  | fuel + 1, c :: rest, pat, repl =>
    if !pat.isEmpty && List.isPrefixOf pat (c :: rest) then
      repl ++ replaceAllF fuel ((c :: rest).drop pat.length) pat repl
    else
      c :: replaceAllF fuel rest pat repl

/-- Python `text.replace(pat, repl)`. -/
def replaceAll (l pat repl : List Char) : List Char :=
  replaceAllF l.length l pat repl

/-- The restore loop: `text.replace(f"___CODE_BLOCK_{i}___", block)` per block. -/
def restoreBlocks (l : List Char) (blocks : List (List Char)) : List Char :=
  (blocks.enum).foldl (fun t ib => replaceAll t (placeholderChars ib.1) ib.2) l

/-- The final line-filtering loop of `clean_markdown_formatting`: keep a line
when its stripped form is nonempty, or the previously kept line is nonblank;
kept lines are right-stripped.  The accumulator is kept in reverse order. -/
def keepLinesAux : List (List Char) → List (List Char) → List (List Char)
  | acc, [] => acc.reverse
  | acc, line :: rest =>
    let keep :=
      !(pyStrip line).isEmpty ||
        (match acc with
         | last :: _ => !(pyStrip last).isEmpty
         | [] => false)
    if keep then keepLinesAux (pyRstrip line :: acc) rest
    else keepLinesAux acc rest

/-- Trailing whitespace-normalisation phase of `clean_markdown_formatting`. -/
def finalLineCleanup (l : List Char) : List Char :=
  let kept := keepLinesAux [] (splitOnChar '\n' l)
  let kept := kept.dropWhile (fun x => (pyStrip x).isEmpty)
  let kept := (kept.reverse.dropWhile (fun x => (pyStrip x).isEmpty)).reverse
  List.intercalate ['\n'] kept

/-- `clean_markdown_formatting` from `hub/services/openrouter.py`. -/
def clean_markdown_formatting (text : String) : String :=
  if text.isEmpty then text
  else
    let l0 := text.data
    let p1 := runPassSt fencedM l0 []
    let p2 := runPassSt inlineM p1.1 p1.2
    let l3 := runPass headerM p2.1
    let l4 := runPass (delim3M '*') l3
    let l5 := runPass (delim2M '*') l4
    let l6 := runPass (delim1M '*') l5
    let l7 := runPass (delim2M '_') l6
    let l8 := runPass (delim1M '_') l7
    let l9 := runPass bulletM l8
    let l10 := runPass numberM l9
    let l11 := runPass nlCollapseM l10
    let l12 := restoreBlocks l11 p2.2
    String.mk (finalLineCleanup l12)

/-! ## Response normalizer (`extract_assistant_text`) -/

/-- The `except Exception` branch of `extract_assistant_text`; the interpreter
message after the colon is abstracted (no claim reads it). -/
def parseFailure (e : String) : String :=
  "Failed to parse response: " ++ e

/-- `extract_assistant_text` from `hub/services/openrouter.py`.  Dynamic-type
errors that CPython would raise inside the `try` are modelled as the
corresponding `parseFailure` result of the enclosing `except`. -/
def extract_assistant_text (result : Dict) : String :=
  let choices : JVal :=
    match jget result "choices" with
    | some v => if JVal.truthy v then v else JVal.arr []
    | none => JVal.arr []
  if !(JVal.truthy choices) then "(no choices in response)"
  else
    match choices with
    | .arr (first :: _) =>
      match first with
      | .obj fkvs =>
        let msg : JVal := (jget fkvs "message").getD (JVal.obj [])
        match msg with
        | .obj mkvs =>
          let content : JVal := (jget mkvs "content").getD JVal.null
          match content with
          | .arr parts =>
            let textParts : List (Option JVal) :=
              parts.filterMap (fun c =>
                match c with
                | .obj ckvs =>
                  if jvIsStr (jget ckvs "type") "text" then some (jget ckvs "text")
                  else none
                | _ => none)
            let kept : List JVal :=
              textParts.filterMap (fun o =>
                match o with
                | some v => if JVal.truthy v then some v else none
                | none => none)
            if kept.all (fun v => match v with | .str _ => true | _ => false) then
              let joined := joinSep "\n"
                (kept.map (fun v => match v with | .str s => s | _ => ""))
              let raw_text := if joined.isEmpty then "(no text parts)" else joined
              clean_markdown_formatting raw_text
            else parseFailure "sequence item: expected str instance"
          | .str s =>
            clean_markdown_formatting (if s.isEmpty then "(empty content)" else s)
          | .null => clean_markdown_formatting "(empty content)"
          | .bool b =>
            if b then parseFailure "expected string or bytes-like object"
            else clean_markdown_formatting "(empty content)"
          | .num n =>
            if n == 0 then clean_markdown_formatting "(empty content)"
            else parseFailure "expected string or bytes-like object"
          | .obj okvs =>
            if okvs.isEmpty then clean_markdown_formatting "(empty content)"
            else parseFailure "expected string or bytes-like object"
        | _ => parseFailure "message has no attribute get"
      | _ => parseFailure "choice has no attribute get"
    | .arr [] => "(no choices in response)"
    | .str _ => parseFailure "str has no attribute get"
    | .obj _ => parseFailure "KeyError 0"
    | .num _ => parseFailure "not subscriptable"
    | .bool _ => parseFailure "not subscriptable"
    | .null => "(no choices in response)"

/-- `extract_gemini_text` from `hub/services/gemini.py`. -/
def extract_gemini_text (data : Dict) : String :=
  let candidates : JVal := (jget data "candidates").getD (JVal.arr [])
  if !(JVal.truthy candidates) then "(no candidates in Gemini response)"
  else
    match candidates with
    | .arr (first :: _) =>
      match first with
      | .obj fkvs =>
        let content : JVal := (jget fkvs "content").getD (JVal.obj [])
        match content with
        | .obj ckvs =>
          let parts : JVal := (jget ckvs "parts").getD (JVal.arr [])
          if !(JVal.truthy parts) then "(no parts in Gemini response)"
          else
            match parts with
            | .arr ps =>
              let textVals : List JVal :=
                ps.filterMap (fun p =>
                  match p with
                  | .obj pkvs =>
                    match jget pkvs "text" with
                    | some v => if JVal.truthy v then some v else none
                    | none => none
                  | _ => none)
              if textVals.isEmpty then "(no text parts in Gemini response)"
              else if textVals.all (fun v => match v with | .str _ => true | _ => false) then
                joinSep "\n" (textVals.map (fun v => match v with | .str s => s | _ => ""))
              else "Failed to parse Gemini response: expected str instance"
            | _ => "Failed to parse Gemini response: not a list"
        | _ => "Failed to parse Gemini response: content has no attribute get"
      | _ => "Failed to parse Gemini response: candidate has no attribute get"
    | _ => "Failed to parse Gemini response: not subscriptable"

/-! ## Task classifier and model registry -/

/-- The research/academic trigger terms of `classify_task`. -/
def research_terms : List String :=
  ["research", "literature review", "academic", "paper", "survey", "citation",
   "references", "doi", "scholarly", "journal", "systematic review"]

/-- The programming trigger terms of `classify_task`. -/
def code_terms : List String :=
  ["code", "function", "bug", "python", "javascript", "algorithm"]

/-- `classify_task` from `hub/services/openrouter.py`: ordered, first match
wins; case-insensitive substring matching; research before code. -/
def classify_task (prompt : String) (image_url : Option String) : String :=
  let p := pyLower prompt
  if research_terms.any (fun t => pyIn t p) then "research"
  else if code_terms.any (fun t => pyIn t p) then "code"
  else if (match image_url with | some u => !u.isEmpty | none => false) then "image_reason"
  else "general"

/-- The hard-coded global default model. -/
def DEFAULT_FALLBACK_MODEL : String := "qwen/qwen-2.5-72b-instruct:free"

/-- The four `INTELLIHUB_MODEL_*` environment overrides read when the module
table is built (`none` means the variable is unset and the hard-coded primary
is used). -/
structure ORCfg where
  modelCode : Option String
  modelImage : Option String
  modelGeneral : Option String
  modelResearch : Option String

/-- `MODEL_PREFERENCES` from `hub/services/openrouter.py`. -/
def MODEL_PREFERENCES (cfg : ORCfg) : String → Option (List String)
  | "code" => some
      [cfg.modelCode.getD "google/gemini-1.5-flash-latest",
       "qwen/qwen-2.5-coder-32b-instruct:free",
       "qwen/qwen-2.5-72b-instruct:free"]
  | "image_reason" => some
      [cfg.modelImage.getD "google/gemini-1.5-pro-latest",
       "x-ai/grok-4-fast:free",
       "qwen/qwen-2.5-72b-instruct:free"]
  | "general" => some
      [cfg.modelGeneral.getD "google/gemini-1.5-flash-latest",
       "qwen/qwen-2.5-72b-instruct:free",
       "qwen/qwen-2.5-coder-32b-instruct:free"]
  | "research" => some
      [cfg.modelResearch.getD "google/gemini-1.5-pro-latest",
       "qwen/qwen-2.5-72b-instruct:free",
       "qwen/qwen-2.5-coder-32b-instruct:free"]
  | _ => none

/-- `MODEL_PREFERENCES.get(task_type) or [DEFAULT_FALLBACK_MODEL]` as used by
`generate_response`. -/
def modelsFor (cfg : ORCfg) (task : String) : List String :=
  match MODEL_PREFERENCES cfg task with
  | some l => if l.isEmpty then [DEFAULT_FALLBACK_MODEL] else l
  | none => [DEFAULT_FALLBACK_MODEL]

/-! ## Response cache -/

/-- `CACHE_TTL = 300` seconds. -/
def CACHE_TTL : Nat := 300

/-- One `_response_cache` entry: the stored response and its store time. -/
structure CacheEntry where
  response : JVal
  timestamp : Nat

/-- The `_response_cache` dict (insertion ordered, keys unique). -/
abbrev Cache := List (String × CacheEntry)

/-- Dict lookup in the cache. -/
def cacheFind (c : Cache) (k : String) : Option CacheEntry :=
  (c.find? (fun kv => kv.1 == k)).map (fun kv => kv.2)

/-- Python `del _response_cache[k]`. -/
def cacheErase (c : Cache) (k : String) : Cache :=
  c.filter (fun kv => !(kv.1 == k))

/-- Python dict assignment `_response_cache[k] = e`. -/
def cacheSet (c : Cache) (k : String) (e : CacheEntry) : Cache :=
  if c.any (fun kv => kv.1 == k) then
    c.map (fun kv => if kv.1 == k then (k, e) else kv)
  else c ++ [(k, e)]

/-- `generate_cache_key`: the md5 digest of the joined input is modelled as
the joined input itself (equal inputs, equal keys; no claim reads the digest). -/
def generate_cache_key (prompt : String) (image_url : Option String)
    (task_type : String) : String :=
  prompt ++ "|" ++ image_url.getD "" ++ "|" ++ task_type

/-- `get_cached_response`: returns the stored response when younger than the
TTL, lazily evicting an expired entry. -/
def get_cached_response (c : Cache) (k : String) (now : Nat) :
    Option JVal × Cache :=
  match cacheFind c k with
  | some e =>
    if now - e.timestamp < CACHE_TTL then (some e.response, c)
    else (none, cacheErase c k)
  | none => (none, c)

/-! ## Key rotator / request executor (`request_with_rotation`) -/

/-- In-process metrics counters (`_metrics`). -/
structure Metrics where
  attempts : Nat
  successful_calls : Nat
  errors_total : Nat
  bytes_received : Nat
  last_latency_ms : Nat
deriving DecidableEq

/-- Network side-effect state: number of POSTs issued so far (indexing the
world oracle) and a ghost log of the model id each POST carried. -/
structure NetState where
  n : Nat
  postLog : List String
deriving DecidableEq

/-- Outcome of one `requests.post` call as seen by the executor. -/
inductive HttpOutcome where
  | netErr (msg : String)
  | resp (status : Nat) (latencyMs : Nat) (bodyText : String)
      (json : Option Dict) (nbytes : Nat)

/-- The HTTP status of an outcome, when a response arrived. -/
def statusOf : HttpOutcome → Option Nat
  | .netErr _ => none
  | .resp s _ _ _ _ => some s

/-- The error kinds of the router.  `RateLimitExhaustedError` subclasses
`RuntimeError` in the source, so `except RuntimeError` catches the first two
constructors; `GeminiError` is a plain `Exception`. -/
inductive RouterError where
  | rateLimitExhausted (msg : String)
  | runtimeError (msg : String)
  | geminiError (msg : String)
deriving DecidableEq

/-- Python `str(e)`. -/
def RouterError.msg : RouterError → String
  | .rateLimitExhausted m => m
  | .runtimeError m => m
  | .geminiError m => m

/-- A chat message (`build_messages` output shape). -/
inductive Message where
  | text (role : String) (content : String)
  | withImage (role : String) (content : String) (url : String)

/-- `build_messages` from `hub/services/openrouter.py`. -/
def build_messages (prompt : String) (image_url : Option String) : List Message :=
  match image_url with
  | some url => [Message.withImage "user" prompt url]
  | none => [Message.text "user" prompt]

/-- The request payload (`{"model": …, "messages": …, "temperature": …}`). -/
structure Payload where
  model : String
  messages : List Message
  temperature : Rat

/-- `resp.text[:180].replace('\n', ' ')` (also used with 200 by gemini). -/
def snippetOf (body : String) (n : Nat) : String :=
  String.mk ((body.data.take n).map (fun c => if c == '\n' then ' ' else c))

/-- Result of the per-key attempt loop. -/
inductive KeyStep where
  | success (data : Dict)
  | hardFail (e : RouterError)
  | nextKey

/-- One attempt-summary line for an HTTP response. -/
def respLine (keyIdx attempt status : Nat) (body : String) : String :=
  "key " ++ toString (keyIdx + 1) ++ " attempt " ++ toString attempt ++
    " -> " ++ toString status ++ " : " ++ snippetOf body 180

/-- The `for attempt in range(1, max_retries_per_key + 1)` loop of
`request_with_rotation`, for one credential.  Back-off sleeps are dropped
(no observable effect in the model). -/
def attemptLoop (world : Nat → HttpOutcome) (model : String) (keyIdx : Nat) :
    Nat → Nat → NetState → Metrics → Option String → List String →
    KeyStep × NetState × Metrics × Option String × List String
  | 0, _, st, ms, le, sm => (KeyStep.nextKey, st, ms, le, sm)
  | r + 1, attempt, st, ms, le, sm =>
    let ms := { ms with attempts := ms.attempts + 1 }
    let o := world st.n
    let st : NetState := { n := st.n + 1, postLog := st.postLog ++ [model] }
    match o with
    | .netErr emsg =>
      let line := "Network error (key " ++ toString (keyIdx + 1) ++ ", attempt " ++
        toString attempt ++ "): " ++ emsg
      attemptLoop world model keyIdx r (attempt + 1) st ms (some line) (sm ++ [line])
    | .resp status lat body json nb =>
      let ms := { ms with last_latency_ms := lat }
      let sm := sm ++ [respLine keyIdx attempt status body]
      if status == 200 then
        match json with
        | some d =>
          (KeyStep.success d, st,
            { ms with successful_calls := ms.successful_calls + 1,
                      bytes_received := ms.bytes_received + nb }, le, sm)
        | none =>
          (KeyStep.hardFail (RouterError.runtimeError "Response not valid JSON (200)"),
            st, ms, le, sm)
      else if status == 401 || status == 403 then
        (KeyStep.nextKey, st, ms,
          some ("Auth error " ++ toString status ++ " with key " ++ toString (keyIdx + 1)), sm)
      else if status == 429 then
        attemptLoop world model keyIdx r (attempt + 1) st ms le sm
      else
        (KeyStep.nextKey, st, ms,
          some ("HTTP " ++ toString status ++ " with key " ++ toString (keyIdx + 1)), sm)

/-- The `for key_index, key in enumerate(api_keys)` loop. -/
def keysLoop (world : Nat → HttpOutcome) (model : String) (maxRetries : Nat) :
    List String → Nat → NetState → Metrics → Option String → List String →
    Option (Dict ⊕ RouterError) × NetState × Metrics × Option String × List String
  | [], _, st, ms, le, sm => (none, st, ms, le, sm)
  | _ :: rest, kidx, st, ms, le, sm =>
    match attemptLoop world model kidx maxRetries 1 st ms le sm with
    | (KeyStep.success d, st, ms, le, sm) => (some (Sum.inl d), st, ms, le, sm)
    | (KeyStep.hardFail e, st, ms, le, sm) => (some (Sum.inr e), st, ms, le, sm)
    | (KeyStep.nextKey, st, ms, le, sm) =>
      keysLoop world model maxRetries rest (kidx + 1) st ms le sm

/-- The `"429" in a` test of the final aggregation (the source checks
`" 429 " in a or "429" in a`, which the model mirrors verbatim). -/
def line429cond (a : String) : Bool :=
  pyIn " 429 " a || pyIn "429" a

/-- `request_with_rotation` from `hub/services/openrouter.py`.  The API keys
affect only the Authorization header, so the world oracle abstracts over the
key; the empty-pool guard, the per-status dispatch, the attempt summary and
the final error classification follow the source line by line. -/
def request_with_rotation (world : Nat → HttpOutcome) (payload : Payload)
    (api_keys : List String) (maxRetriesPerKey : Nat) (_backoffSeconds : Nat)
    (st : NetState) (ms : Metrics) :
    Except RouterError Dict × NetState × Metrics :=
  if api_keys.isEmpty then
    (Except.error (RouterError.runtimeError
      "No API keys found. Set OPENROUTER_API_KEYS or OPENROUTER_API_KEY_1."), st, ms)
  else
    match keysLoop world payload.model maxRetriesPerKey api_keys 0 st ms none [] with
    | (some (Sum.inl d), st, ms, _, _) => (Except.ok d, st, ms)
    | (some (Sum.inr e), st, ms, _, _) => (Except.error e, st, ms)
    | (none, st, ms, le, sm) =>
      let diagnostic := joinSep " | " sm
      let ms := { ms with errors_total := ms.errors_total + 1 }
      if !diagnostic.isEmpty && sm.all line429cond then
        (Except.error (RouterError.rateLimitExhausted
          ("Rate limited across all keys. Attempts: " ++ diagnostic)), st, ms)
      else
        (Except.error (RouterError.runtimeError
          ("All keys failed. Last error: " ++ optStr le ++ ". Attempts: " ++ diagnostic)),
          st, ms)

/-! ## Model fallback coordinator (`try_models_with_fallback`) -/

/-- Result of the coordinator, with a ghost trace of the models handed to
`request_with_rotation`, in dispatch order. -/
structure TMResult where
  out : Except RouterError Dict
  st : NetState
  ms : Metrics
  dispatched : List String

/-- The `for model in models` loop of `try_models_with_fallback`.
`totalLen` is `len(models)` of the full list (the loop tests it, not the
remaining count).  The dead `all_attempts` list of the source is omitted. -/
def tmLoop (world : Nat → HttpOutcome) (payload : Payload) (api_keys : List String)
    (totalLen : Nat) :
    List String → NetState → Metrics → Option String → Bool → List String → TMResult
  | [], st, ms, lastError, rateLimitOnly, disp =>
    let failOut : Except RouterError Dict :=
      if rateLimitOnly &&
          (match lastError with
           | some t => !t.isEmpty && pyIn "429" t
           | none => false) then
        Except.error (RouterError.rateLimitExhausted
          "All models/keys hit external 429 rate limits.")
      else
        Except.error (RouterError.runtimeError
          ("All fallback models failed. Last error: " ++ optStr lastError))
    ⟨failOut, st, ms, disp⟩
  | model :: rest, st, ms, _prevLastError, rateLimitOnly, disp =>
    let disp := disp ++ [model]
    match request_with_rotation world { payload with model := model } api_keys 1 5 st ms with
    | (Except.ok d, st, ms) => ⟨Except.ok d, st, ms, disp⟩
    | (Except.error e, st, ms) =>
      let errText := RouterError.msg e
      let lastError := some errText
      let rateLimitOnly := rateLimitOnly && pyIn "429" errText
      if pyIn "429" errText && decide (1 < totalLen) then
        tmLoop world payload api_keys totalLen rest st ms lastError rateLimitOnly disp
      else
        ⟨Except.error e, st, ms, disp⟩

/-- `try_models_with_fallback` from `hub/services/openrouter.py`. -/
def try_models_with_fallback (world : Nat → HttpOutcome) (models : List String)
    (payload : Payload) (api_keys : List String) (st : NetState) (ms : Metrics) : TMResult :=
  tmLoop world payload api_keys models.length models st ms none true []

/-! ## Cross-provider fallback chain (`generate_response`) -/

/-- Environment and collaborator boundary of `generate_response`.
`apiKeys` is the pool returned by `collect_api_keys()` (the claims quantify
over the pool, so the environment-variable scraping is abstracted to its
result).  The three `…Call` fields are boundary oracles for the dedicated
research provider, the direct Gemini client and the local LLM backend: each is
the outcome this dispatch would observe if it invoked that collaborator
(`Except.error` models the collaborator raising). -/
structure Env where
  perplexityKey : Option String
  geminiKey : Option String
  disableGeminiFallback : Bool
  apiKeys : List String
  perplexityCall : Except String JVal
  geminiCall : Except String JVal
  localCall : Except String JVal

/-- The fixed guidance message synthesized on rate-limit exhaustion. -/
def GUIDANCE_TEXT : String :=
  "The service hit external rate limits on all available providers.\n\n" ++
  "What you can do now:\n" ++
  "• Add credits to OpenRouter (unlocks higher daily quota).\n" ++
  "• Add additional API keys (OPENROUTER_API_KEYS) for rotation.\n" ++
  "• Retry in a few minutes (limits reset periodically).\n" ++
  "• Upgrade to paid / non-free models and include them in MODEL_PREFERENCES.\n" ++
  "• Implement per-user throttling to reduce burst traffic."

/-- The normalized response synthesized in the `except RateLimitExhaustedError`
branch of `generate_response`. -/
def guidanceResponse (model0 task_type : String) : JVal :=
  JVal.obj
    [("model", JVal.str model0),
     ("task_type", JVal.str task_type),
     ("assistant_text", JVal.str GUIDANCE_TEXT),
     ("raw", JVal.obj [("error", JVal.str "rate_limited")])]

/-- The normalized response built from a raw provider payload. -/
def mkNormalized (modelUsed : JVal) (task_type : String) (raw : Dict) : JVal :=
  JVal.obj
    [("model", modelUsed),
     ("task_type", JVal.str task_type),
     ("assistant_text", JVal.str (extract_assistant_text raw)),
     ("raw", JVal.obj raw)]

/-- The full result of one `generate_response` dispatch: outcome (a raised
error or the returned normalized response), and the cache / network / metrics
state after the call. -/
structure GenResult where
  out : Except RouterError JVal
  cache : Cache
  st : NetState
  ms : Metrics

/-- `generate_response` from `hub/services/openrouter.py`: cache lookup,
research special-dispatch, direct-Gemini bypass when no aggregator keys exist,
the coordinator, the rate-limit guidance branch (which, per the source,
returns without caching), and the RuntimeError fallback chain (final default
model retry, then local LLM, then direct Gemini). -/
def generate_response (cfg : ORCfg) (env : Env) (world : Nat → HttpOutcome)
    (prompt : String) (image_url : Option String) (temperature : Rat)
    (now : Nat) (cache : Cache) (st : NetState) (ms : Metrics) : GenResult :=
  let task_type := classify_task prompt image_url
  let key := generate_cache_key prompt image_url task_type
  let gc := get_cached_response cache key now
  let cache := gc.2
  if (match gc.1 with | some r => JVal.truthy r | none => false) then
    ⟨Except.ok (gc.1.getD JVal.null), cache, st, ms⟩
  else
    let researchRes : Option GenResult :=
      if task_type = "research" ∧ env.perplexityKey.isSome then
        match env.perplexityCall with
        | Except.ok r => some ⟨Except.ok r, cacheSet cache key ⟨r, now⟩, st, ms⟩
        | Except.error _ => none
      else none
    match researchRes with
    | some res => res
    | none =>
      let models := modelsFor cfg task_type
      let api_keys := env.apiKeys
      let messages := build_messages prompt image_url
      let m0 := models.headD DEFAULT_FALLBACK_MODEL
      let payload : Payload := ⟨m0, messages, temperature⟩
      if api_keys.isEmpty ∧ env.geminiKey.isSome then
        match env.geminiCall with
        | Except.ok d => ⟨Except.ok d, cacheSet cache key ⟨d, now⟩, st, ms⟩
        | Except.error ge =>
          ⟨Except.error (RouterError.runtimeError
            ("No OpenRouter keys and Gemini direct failed: " ++ ge)), cache, st, ms⟩
      else
        match try_models_with_fallback world models payload api_keys st ms with
        | ⟨Except.ok raw, st, ms, _⟩ =>
          let result := mkNormalized ((jget raw "model").getD (JVal.str m0)) task_type raw
          ⟨Except.ok result, cacheSet cache key ⟨result, now⟩, st, ms⟩
        | ⟨Except.error (RouterError.rateLimitExhausted _), st, ms, _⟩ =>
          ⟨Except.ok (guidanceResponse m0 task_type), cache, st, ms⟩
        | ⟨Except.error (RouterError.geminiError gm), st, ms, _⟩ =>
          ⟨Except.error (RouterError.geminiError gm), cache, st, ms⟩
        | ⟨Except.error (RouterError.runtimeError em), st, ms, _⟩ =>
          match request_with_rotation world ⟨DEFAULT_FALLBACK_MODEL, messages, temperature⟩
              api_keys 1 8 st ms with
          | (Except.ok raw, st, ms) =>
            let result := mkNormalized (JVal.str DEFAULT_FALLBACK_MODEL) task_type raw
            ⟨Except.ok result, cacheSet cache key ⟨result, now⟩, st, ms⟩
          | (Except.error finalErr, st, ms) =>
            if env.disableGeminiFallback then ⟨Except.error finalErr, cache, st, ms⟩
            else
              match env.localCall with
              | Except.ok r => ⟨Except.ok r, cacheSet cache key ⟨r, now⟩, st, ms⟩
              | Except.error _ =>
                match env.geminiKey with
                | some _ =>
                  match env.geminiCall with
                  | Except.ok g => ⟨Except.ok g, cacheSet cache key ⟨g, now⟩, st, ms⟩
                  | Except.error ge =>
                    ⟨Except.error (RouterError.runtimeError
                      ("OpenRouter failed (" ++ em ++ "); Gemini fallback failed (" ++ ge ++ ")")),
                      cache, st, ms⟩
                | none => ⟨Except.error finalErr, cache, st, ms⟩

/-! ## Direct single-vendor client (`generate_gemini_response`) -/

/-- Environment of the Gemini direct client (`none` models unset-or-empty,
which Python treats as falsy). -/
structure GeminiEnv where
  apiKey : Option String
  newApiKey : Option String
  geminiModelEnv : Option String
  intelliGeminiModelEnv : Option String
  preferredFamily : Option String

/-- Network side-effect state of the Gemini client: POSTs issued and a ghost
log of the candidate model each POST targeted. -/
structure GemState where
  n : Nat
  postLog : List String
deriving DecidableEq

/-- Outcome of one Gemini `requests.post`. -/
inductive GOutcome where
  | netErr (msg : String)
  | resp (status : Nat) (bodyText : String) (json : Option Dict)

/-- `alternates_map` from `hub/services/gemini.py` (missing keys map to `[]`). -/
def alternatesMap : String → List String
  | "gemini-1.5-flash" =>
      ["gemini-2.5-flash", "gemini-flash-latest", "gemini-2.0-flash", "gemini-2.0-flash-001"]
  | "gemini-1.5-pro" => ["gemini-2.5-pro", "gemini-pro-latest", "gemini-2.0-pro-exp"]
  | "gemini-2.5-flash" => ["gemini-flash-latest", "gemini-2.5-flash-lite", "gemini-2.0-flash"]
  | "gemini-2.5-pro" => ["gemini-pro-latest", "gemini-2.5-flash"]
  | _ => []

/-- A single-quote character, for rendering the Python list repr. -/
def sQuote : String := String.mk [Char.ofNat 39]

/-- Python `repr` of a list of strings, as an f-string renders it. -/
def pyListRepr (xs : List String) : String :=
  "[" ++ joinSep ", " (xs.map (fun s => sQuote ++ s ++ sQuote)) ++ "]"

/-- Python `s.split(c)[-1]` (the split always yields at least one piece). -/
def lastSlashComponent (s : String) : String :=
  match (splitOnChar '/' s.data).getLast? with
  | some l => String.mk l
  | none => s

/-- The final `GeminiError` message of `generate_gemini_response`. -/
def geminiFailMsg (candidate_models : List String) (last_error : Option String) : String :=
  "Gemini API failed after trying models=" ++ pyListRepr candidate_models ++
    " last_error=" ++ optStr last_error ++
    ". Set GEMINI_MODEL or GEMINI_PREFERRED_FAMILY to override."

/-- The `for candidate in list(candidate_models)` loop of
`generate_gemini_response`.  The iteration runs over the snapshot taken at
loop entry; `candidate_models` may still grow (404 discovery appends to it)
but appended entries are not visited — that is what `list(...)` does.
`listingOutcome` is the boundary oracle for the model-listing endpoint
(`some names` = HTTP 200 with those model names; `none` = non-200 or raised,
in which case the listing cache is left untouched and the list is empty). -/
def gemLoop (gworld : Nat → GOutcome) (listingOutcome : Option (List String))
    (preferred : String) (task : String) (now : Nat) :
    List String → List String → List String → Option String →
    Option (Nat × List String) → GemState →
    Except RouterError JVal × List String × Option (Nat × List String) × GemState
  | [], cms, _att, le, mlCache, gst =>
    (Except.error (RouterError.geminiError (geminiFailMsg cms le)), cms, mlCache, gst)
  | cand :: rest, cms, att, _le, mlCache, gst =>
    let o := gworld gst.n
    let gst : GemState := { n := gst.n + 1, postLog := gst.postLog ++ [cand] }
    match o with
    | GOutcome.netErr m =>
      gemLoop gworld listingOutcome preferred task now rest cms att
        (some ("Network error: " ++ m)) mlCache gst
    | GOutcome.resp status body json =>
      if status == 200 then
        match json with
        | some data =>
          let cleaned := clean_markdown_formatting (extract_gemini_text data)
          (Except.ok (JVal.obj
            [("model", JVal.str ("gemini/" ++ cand)),
             ("task_type", JVal.str task),
             ("assistant_text", JVal.str cleaned),
             ("raw", JVal.obj data)]), cms, mlCache, gst)
        | none =>
          (Except.error (RouterError.geminiError "Gemini returned non-JSON 200 response"),
            cms, mlCache, gst)
      else
        let snippet := snippetOf body 200
        let le := some (if snippet.isEmpty then "HTTP " ++ toString status
          else "HTTP " ++ toString status ++ " " ++ snippet)
        if status == 404 then
          let att := att ++ [cand]
          let stale := match mlCache with
            | none => true
            | some tl => decide (now - tl.1 > 300)
          let listed : List String × Option (Nat × List String) :=
            if stale then
              match listingOutcome with
              | some names => (names, some (now, names))
              | none => ([], mlCache)
            else ((mlCache.getD (0, [])).2, mlCache)
          let cms :=
            match listed.1.find? (fun m => pyIn preferred m) with
            | some full =>
              let short := lastSlashComponent full
              if cms.contains short then cms else cms ++ [short]
            | none => cms
          gemLoop gworld listingOutcome preferred task now rest cms att le listed.2 gst
        else
          (Except.error (RouterError.geminiError (geminiFailMsg cms le)), cms, mlCache, gst)

/-- `generate_gemini_response` from `hub/services/gemini.py`.  The image fetch
is a boundary oracle (`imageFetch`); the request payload body does not
influence the oracle-driven outcomes and is therefore not materialised.
Returns (outcome, final candidate_models, final model-list cache, state). -/
def generate_gemini_response (env : GeminiEnv) (gworld : Nat → GOutcome)
    (listingOutcome : Option (List String)) (prompt : String)
    (image_url : Option String) (_temperature : Rat) (model : String)
    (use_new_key : Bool) (imageFetch : Except String Unit)
    (modelListCache : Option (Nat × List String)) (now : Nat) (gst : GemState) :
    Except RouterError JVal × List String × Option (Nat × List String) × GemState :=
  let keyRes : Except RouterError Unit :=
    if use_new_key then
      match env.newApiKey, env.apiKey with
      | some _, _ => Except.ok ()
      | none, some _ => Except.ok ()
      | none, none => Except.error (RouterError.geminiError
          "Neither GEMINI_NEW_API_KEY nor GEMINI_API_KEY found in environment")
    else
      match env.apiKey with
      | some _ => Except.ok ()
      | none => Except.error (RouterError.geminiError
          "GEMINI_API_KEY not found in environment")
  match keyRes with
  | Except.error e => (Except.error e, [], modelListCache, gst)
  | Except.ok _ =>
    let model :=
      if model = "gemini-1.5-flash" ∨ model = "gemini-2.5-flash" then
        match (match env.geminiModelEnv with
               | some m => some m
               | none => env.intelliGeminiModelEnv) with
        | some m => pyStripStr m
        | none => model
      else model
    let task := classify_task prompt image_url
    match image_url, imageFetch with
    | some _, Except.error e =>
      (Except.error (RouterError.geminiError ("Failed to fetch image for Gemini: " ++ e)),
        [], modelListCache, gst)
    | _, _ =>
      let cms := model :: ((alternatesMap model).filter (fun m => !(m == model)))
      let preferred := env.preferredFamily.getD "gemini-2.5"
      gemLoop gworld listingOutcome preferred task now cms cms [] none modelListCache gst

/-! ## Helper lemmas -/

theorem pyIn_iff (x s : String) : pyIn x s = true ↔ x.data <:+: s.data := by
  simp [pyIn]

theorem pyIn_append_left (x pre s : String) (h : pyIn x s = true) :
    pyIn x (pre ++ s) = true := by
  rw [pyIn_iff] at h ⊢
  rw [String.data_append]
  obtain ⟨u, v, huv⟩ := h
  exact ⟨pre.data ++ u, v, by rw [← huv]; simp⟩

theorem pyIn_append_right (x s suf : String) (h : pyIn x s = true) :
    pyIn x (s ++ suf) = true := by
  rw [pyIn_iff] at h ⊢
  rw [String.data_append]
  obtain ⟨u, v, huv⟩ := h
  exact ⟨u, v ++ suf.data, by rw [← huv]; simp⟩

theorem pyIn_self (x : String) : pyIn x x = true := by
  rw [pyIn_iff]

theorem pyIn_ne_empty (x s : String) (hx : x.data ≠ []) (h : pyIn x s = true) :
    s.isEmpty = false := by
  rw [pyIn_iff] at h
  obtain ⟨u, v, huv⟩ := h
  by_contra hne
  rw [Bool.not_eq_false, String.isEmpty_iff] at hne
  subst hne
  have hnil : ("" : String).data = [] := rfl
  rw [hnil] at huv
  rcases List.append_eq_nil.mp huv with ⟨h1, -⟩
  rcases List.append_eq_nil.mp h1 with ⟨-, h2⟩
  exact hx h2

theorem joinSep_head_sub (sep : String) (a : String) (rest : List String) :
    a.data <:+: (joinSep sep (a :: rest)).data := by
  cases rest with
  | nil => simp [joinSep]
  | cons b bs =>
    show a.data <:+: (a ++ sep ++ joinSep sep (b :: bs)).data
    rw [String.data_append, String.data_append]
    exact ⟨[], sep.data ++ (joinSep sep (b :: bs)).data, by simp⟩

theorem toString_429 : toString (429 : Nat) = "429" := by decide

theorem respLine_has429 (k a : Nat) (body : String) :
    pyIn "429" (respLine k a 429 body) = true := by
  unfold respLine
  rw [toString_429]
  apply pyIn_append_right
  apply pyIn_append_right
  apply pyIn_append_left
  exact pyIn_self "429"

theorem line429cond_of_429 (s : String) (h : pyIn "429" s = true) :
    line429cond s = true := by
  simp [line429cond, h]

/-! ## Claim theorems -/

/-- C4.  For every prompt and image flag: a prompt containing any research
term (case-insensitive substring) classifies as `research`, regardless of any
code terms also present; a prompt with no research term, no code term and no
image reference classifies as `general`.  `classify_task` is a plain Lean
function of its two arguments, hence pure and deterministic. -/
theorem classify_task_spec :
    (∀ p img, research_terms.any (fun t => pyIn t (pyLower p)) = true →
      classify_task p img = "research") ∧
    (∀ p img, research_terms.any (fun t => pyIn t (pyLower p)) = false →
      code_terms.any (fun t => pyIn t (pyLower p)) = false →
      img = none → classify_task p img = "general") := by
  constructor
  · intro p img h
    simp [classify_task, h]
  · intro p img h1 h2 h3
    simp [classify_task, h1, h2, h3]

/-- Witness for C4 at concrete prompts: a prompt holding both a research and a
code term classifies as `research`; a term-free, image-free prompt as
`general`. -/
theorem classify_task_spec_witness :
    classify_task ("Research paper about python code") none = "research" ∧
    classify_task ("hello there") none = "general" :=
  ⟨classify_task_spec.1 ("Research paper about python code") none (by decide),
   classify_task_spec.2 ("hello there") none (by decide) (by decide) rfl⟩

/-- C7 (counterexample).  The claim says `extract_assistant_text` always
returns a non-empty string; but for a payload whose message content is the
one-space string, the markdown cleanup strips everything and the function
returns the empty string. -/
theorem extract_text_empty_cex :
    extract_assistant_text
      [("choices", JVal.arr [JVal.obj [("message", JVal.obj [("content", JVal.str (" "))])]])] =
      "" := by
  rfl

/-- C7 (amended).  `extract_assistant_text` is a total function (never raises,
never returns null), and an empty or missing — more generally falsy —
`choices` entry maps to the fixed non-empty placeholder.  (The overall result
can still be empty when the content is whitespace-only, per the
counterexample.) -/
theorem extract_text_placeholder_spec (result : Dict)
    (h : (match jget result ("choices") with
          | some v => JVal.truthy v
          | none => false) = false) :
    extract_assistant_text result = "(no choices in response)" ∧
    ("(no choices in response)" : String).isEmpty = false := by
  refine ⟨?_, by decide⟩
  unfold extract_assistant_text
  rcases hj : jget result "choices" with _ | v
  · simp [hj, JVal.truthy]
  · rw [hj] at h
    have h2 : JVal.truthy v = false := h
    simp only [hj, h2]
    simp [JVal.truthy]

/-- Witness for C7's amended theorem at the empty payload. -/
theorem extract_text_placeholder_spec_witness :
    extract_assistant_text [] = "(no choices in response)" ∧
    ("(no choices in response)" : String).isEmpty = false :=
  extract_text_placeholder_spec [] (by decide)

/-- C8 (code bug).  At the failing input — a fenced block with bold-looking
interior, followed by bold text outside the fence — the cleanup returns a
string in which the fence interior is gone entirely: the italic-underscore
pass mangles the `___CODE_BLOCK_0___` placeholder into `__CODEBLOCK0__`, so
the restore step never fires.  The bold text outside the fence is stripped as
specified. -/
theorem markdown_fence_lost_bug :
    clean_markdown_formatting ("```\nx**y**\n```\nHello **world**") =
      "__CODEBLOCK0__\nHello world" ∧
    pyIn ("x**y**") (clean_markdown_formatting ("```\nx**y**\n```\nHello **world**")) = false := by
  exact ⟨rfl, by decide⟩

/-- C10.  Calling the executor with an empty credential pool fails
immediately with the configuration `RuntimeError`: the returned network state
(`st`, which counts issued POSTs) and every metrics counter are exactly the
input ones — no HTTP attempt is issued and no counter moves. -/
theorem empty_pool_no_metrics_spec (world : Nat → HttpOutcome) (payload : Payload)
    (mr bo : Nat) (st : NetState) (ms : Metrics) :
    request_with_rotation world payload [] mr bo st ms =
      (Except.error (RouterError.runtimeError
        ("No API keys found. Set OPENROUTER_API_KEYS or OPENROUTER_API_KEY_1.")), st, ms) :=
  rfl

/-! ## The all-429 lemma chain -/

theorem attemptLoop_all429 (world : Nat → HttpOutcome)
    (hw : ∀ n, statusOf (world n) = some 429) (model : String) (kidx : Nat) :
    ∀ (r attempt : Nat) (st : NetState) (ms : Metrics) (le : Option String)
      (sm : List String),
    ∃ st2 ms2 sm2,
      attemptLoop world model kidx r attempt st ms le sm =
        (KeyStep.nextKey, st2, ms2, le, sm ++ sm2) ∧
      (∀ l ∈ sm2, pyIn "429" l = true) ∧ sm2.length = r := by
  intro r
  induction r with
  | zero =>
    intro attempt st ms le sm
    exact ⟨st, ms, [], by simp [attemptLoop], by simp, rfl⟩
  | succ n ih =>
    intro attempt st ms le sm
    have hs := hw st.n
    cases ho : world st.n with
    | netErr m => rw [ho] at hs; simp [statusOf] at hs
    | resp status lat body json nb =>
      rw [ho] at hs
      have hst : status = 429 := by simpa [statusOf] using hs
      subst hst
      obtain ⟨st2, ms2, sm2, heq, hgood, hlen⟩ :=
        ih (attempt + 1) ⟨st.n + 1, st.postLog ++ [model]⟩
          { ms with attempts := ms.attempts + 1, last_latency_ms := lat }
          le (sm ++ [respLine kidx attempt 429 body])
      refine ⟨st2, ms2, respLine kidx attempt 429 body :: sm2, ?_, ?_, ?_⟩
      · have step : attemptLoop world model kidx (n + 1) attempt st ms le sm =
            attemptLoop world model kidx n (attempt + 1)
              ⟨st.n + 1, st.postLog ++ [model]⟩
              { ms with attempts := ms.attempts + 1, last_latency_ms := lat }
              le (sm ++ [respLine kidx attempt 429 body]) := by
          conv_lhs => rw [attemptLoop]
          rw [ho]
          simp
        rw [step, heq, List.append_assoc]
        rfl
      · intro l hl
        rcases List.mem_cons.mp hl with rfl | hl
        · exact respLine_has429 kidx attempt body
        · exact hgood l hl
      · simp [hlen]

theorem keysLoop_all429 (world : Nat → HttpOutcome)
    (hw : ∀ n, statusOf (world n) = some 429) (model : String) (mr : Nat) :
    ∀ (keys : List String) (kidx : Nat) (st : NetState) (ms : Metrics)
      (le : Option String) (sm : List String),
    ∃ st2 ms2 sm2,
      keysLoop world model mr keys kidx st ms le sm = (none, st2, ms2, le, sm ++ sm2) ∧
      (∀ l ∈ sm2, pyIn "429" l = true) ∧ sm2.length = keys.length * mr := by
  intro keys
  induction keys with
  | nil =>
    intro kidx st ms le sm
    exact ⟨st, ms, [], by simp [keysLoop], by simp, by simp⟩
  | cons k rest ih =>
    intro kidx st ms le sm
    obtain ⟨stA, msA, smA, heqA, hgoodA, hlenA⟩ :=
      attemptLoop_all429 world hw model kidx mr 1 st ms le sm
    obtain ⟨st2, ms2, sm2, heqB, hgoodB, hlenB⟩ := ih (kidx + 1) stA msA le (sm ++ smA)
    refine ⟨st2, ms2, smA ++ sm2, ?_, ?_, ?_⟩
    · show (match attemptLoop world model kidx mr 1 st ms le sm with
        | (KeyStep.success d, st, ms, le, sm) => (some (Sum.inl d), st, ms, le, sm)
        | (KeyStep.hardFail e, st, ms, le, sm) => (some (Sum.inr e), st, ms, le, sm)
        | (KeyStep.nextKey, st, ms, le, sm) =>
          keysLoop world model mr rest (kidx + 1) st ms le sm) = _
      rw [heqA]
      show keysLoop world model mr rest (kidx + 1) stA msA le (sm ++ smA) = _
      rw [heqB, List.append_assoc]
    · intro l hl
      rcases List.mem_append.mp hl with hl | hl
      · exact hgoodA l hl
      · exact hgoodB l hl
    · simp [hlenA, hlenB, Nat.succ_mul, Nat.add_comm]

theorem request_with_rotation_429 (world : Nat → HttpOutcome)
    (hw : ∀ n, statusOf (world n) = some 429) (payload : Payload)
    (keys : List String) (hk : keys ≠ []) (mr : Nat) (hmr : 1 ≤ mr) (bo : Nat)
    (st : NetState) (ms : Metrics) :
    ∃ st2 ms2 d,
      request_with_rotation world payload keys mr bo st ms =
        (Except.error (RouterError.rateLimitExhausted
          ("Rate limited across all keys. Attempts: " ++ d)), st2, ms2) ∧
      pyIn "429" ("Rate limited across all keys. Attempts: " ++ d) = true := by
  obtain ⟨st2, ms2, sm2, heq, hgood, hlen⟩ :=
    keysLoop_all429 world hw payload.model mr keys 0 st ms none []
  rw [List.nil_append] at heq
  have hkE : keys.isEmpty = false := by
    cases keys with
    | nil => exact absurd rfl hk
    | cons a b => rfl
  have hne : sm2 ≠ [] := by
    intro hnil
    rw [hnil] at hlen
    cases keys with
    | nil => exact absurd rfl hk
    | cons a b =>
      rw [List.length_cons] at hlen
      rcases Nat.mul_eq_zero.mp hlen.symm with h | h
      · exact absurd h (Nat.succ_ne_zero _)
      · omega
  obtain ⟨l0, sl, rfl⟩ := List.exists_cons_of_ne_nil hne
  have hdiagIn : pyIn "429" (joinSep " | " (l0 :: sl)) = true := by
    rw [pyIn_iff]
    have h1 : ("429" : String).data <:+: l0.data :=
      (pyIn_iff "429" l0).mp (hgood l0 (List.mem_cons_self l0 sl))
    exact h1.trans (joinSep_head_sub " | " l0 sl)
  have hdiagNe : (joinSep " | " (l0 :: sl)).isEmpty = false :=
    pyIn_ne_empty "429" _ (by decide) hdiagIn
  have hall : (l0 :: sl).all line429cond = true := by
    rw [List.all_eq_true]
    intro l hl
    exact line429cond_of_429 l (hgood l hl)
  refine ⟨st2, { ms2 with errors_total := ms2.errors_total + 1 },
    joinSep " | " (l0 :: sl), ?_, pyIn_append_left "429" _ _ hdiagIn⟩
  simp only [request_with_rotation, hkE, Bool.false_eq_true, if_false]
  rw [heq]
  simp [hdiagNe, hall]

theorem tmLoop_429 (world : Nat → HttpOutcome)
    (hw : ∀ n, statusOf (world n) = some 429) (payload : Payload)
    (keys : List String) (hk : keys ≠ []) (totalLen : Nat) (htl : 1 < totalLen) :
    ∀ (rem : List String) (st : NetState) (ms : Metrics) (t : String)
      (disp : List String),
    pyIn "429" t = true → t.isEmpty = false →
    ∃ m st2 ms2 disp2,
      tmLoop world payload keys totalLen rem st ms (some t) true disp =
        ⟨Except.error (RouterError.rateLimitExhausted m), st2, ms2, disp2⟩ := by
  intro rem
  induction rem with
  | nil =>
    intro st ms t disp h1 h2
    refine ⟨"All models/keys hit external 429 rate limits.", st, ms, disp, ?_⟩
    simp [tmLoop, h1, h2]
  | cons c rem2 ih =>
    intro st ms t disp h1 h2
    obtain ⟨stR, msR, d, heqR, hpy⟩ :=
      request_with_rotation_429 world hw { payload with model := c } keys hk 1 le_rfl 5 st ms
    have hne : ("Rate limited across all keys. Attempts: " ++ d).isEmpty = false :=
      pyIn_ne_empty "429" _ (by decide) hpy
    obtain ⟨m, st2, ms2, disp2, heq2⟩ := ih stR msR _ (disp ++ [c]) hpy hne
    refine ⟨m, st2, ms2, disp2, ?_⟩
    show (match request_with_rotation world { payload with model := c } keys 1 5 st ms with
      | (Except.ok d, st, ms) => ⟨Except.ok d, st, ms, disp ++ [c]⟩
      | (Except.error e, st, ms) =>
        let errText := RouterError.msg e
        let lastError := some errText
        let rateLimitOnly := true && pyIn "429" errText
        if pyIn "429" errText && decide (1 < totalLen) then
          tmLoop world payload keys totalLen rem2 st ms lastError rateLimitOnly (disp ++ [c])
        else ⟨Except.error e, st, ms, disp ++ [c]⟩ : TMResult) = _
    rw [heqR]
    simp only [RouterError.msg, hpy, decide_eq_true htl, Bool.and_self, if_true, Bool.true_and]
    exact heq2

theorem try_models_429 (world : Nat → HttpOutcome)
    (hw : ∀ n, statusOf (world n) = some 429) (models : List String)
    (hm : models ≠ []) (payload : Payload) (keys : List String) (hk : keys ≠ [])
    (st : NetState) (ms : Metrics) :
    ∃ m st2 ms2 disp,
      try_models_with_fallback world models payload keys st ms =
        ⟨Except.error (RouterError.rateLimitExhausted m), st2, ms2, disp⟩ := by
  cases models with
  | nil => exact absurd rfl hm
  | cons a rest =>
    cases rest with
    | nil =>
      obtain ⟨stR, msR, d, heqR, hpy⟩ :=
        request_with_rotation_429 world hw { payload with model := a } keys hk 1 le_rfl 5 st ms
      refine ⟨"Rate limited across all keys. Attempts: " ++ d, stR, msR, [a], ?_⟩
      show (match request_with_rotation world { payload with model := a } keys 1 5 st ms with
        | (Except.ok d, st, ms) => (⟨Except.ok d, st, ms, [] ++ [a]⟩ : TMResult)
        | (Except.error e, st, ms) =>
          let errText := RouterError.msg e
          let lastError := some errText
          let rateLimitOnly := true && pyIn "429" errText
          if pyIn "429" errText && decide (1 < ([a] : List String).length) then
            tmLoop world payload keys ([a] : List String).length [] st ms lastError
              rateLimitOnly ([] ++ [a])
          else ⟨Except.error e, st, ms, [] ++ [a]⟩) = _
      rw [heqR]
      simp [RouterError.msg]
    | cons b rest2 =>
      have htl : 1 < (a :: b :: rest2).length := by
        rw [List.length_cons, List.length_cons]
        omega
      obtain ⟨stR, msR, d, heqR, hpy⟩ :=
        request_with_rotation_429 world hw { payload with model := a } keys hk 1 le_rfl 5 st ms
      have hne : ("Rate limited across all keys. Attempts: " ++ d).isEmpty = false :=
        pyIn_ne_empty "429" _ (by decide) hpy
      obtain ⟨m, st2, ms2, disp2, heq2⟩ :=
        tmLoop_429 world hw payload keys hk (a :: b :: rest2).length htl
          (b :: rest2) stR msR _ ([] ++ [a]) hpy hne
      refine ⟨m, st2, ms2, disp2, ?_⟩
      show (match request_with_rotation world { payload with model := a } keys 1 5 st ms with
        | (Except.ok d, st, ms) => (⟨Except.ok d, st, ms, [] ++ [a]⟩ : TMResult)
        | (Except.error e, st, ms) =>
          let errText := RouterError.msg e
          let lastError := some errText
          let rateLimitOnly := true && pyIn "429" errText
          if pyIn "429" errText && decide (1 < (a :: b :: rest2).length) then
            tmLoop world payload keys (a :: b :: rest2).length (b :: rest2) st ms lastError
              rateLimitOnly ([] ++ [a])
          else ⟨Except.error e, st, ms, [] ++ [a]⟩) = _
      rw [heqR]
      simp only [RouterError.msg, hpy, decide_eq_true htl, if_true, Bool.true_and, Bool.and_self]
      exact heq2

theorem modelsFor_ne_nil (cfg : ORCfg) (task : String) : modelsFor cfg task ≠ [] := by
  unfold modelsFor
  cases h : MODEL_PREFERENCES cfg task with
  | none => simp
  | some l =>
    by_cases hl : l.isEmpty
    · simp [hl]
    · simp only [hl, Bool.false_eq_true, if_false]
      intro hnil
      rw [hnil] at hl
      exact hl rfl

theorem generate_response_429 (cfg : ORCfg) (env : Env) (world : Nat → HttpOutcome)
    (hw : ∀ n, statusOf (world n) = some 429) (prompt : String)
    (img : Option String) (temp : Rat) (now : Nat) (st : NetState) (ms : Metrics)
    (hk : env.apiKeys ≠ []) (hp : env.perplexityKey = none) :
    ∃ st2 ms2,
      generate_response cfg env world prompt img temp now [] st ms =
        ⟨Except.ok (guidanceResponse
            ((modelsFor cfg (classify_task prompt img)).headD DEFAULT_FALLBACK_MODEL)
            (classify_task prompt img)), [], st2, ms2⟩ := by
  have hm := modelsFor_ne_nil cfg (classify_task prompt img)
  have hkE : env.apiKeys.isEmpty = false := by
    cases h : env.apiKeys with
    | nil => exact absurd h hk
    | cons a b => rfl
  obtain ⟨m, st2, ms2, disp, heqT⟩ :=
    try_models_429 world hw (modelsFor cfg (classify_task prompt img)) hm
      ⟨(modelsFor cfg (classify_task prompt img)).headD DEFAULT_FALLBACK_MODEL,
        build_messages prompt img, temp⟩ env.apiKeys hk st ms
  refine ⟨st2, ms2, ?_⟩
  simp only [generate_response]
  rw [show get_cached_response ([] : Cache)
      (generate_cache_key prompt img (classify_task prompt img)) now = (none, ([] : Cache))
    from rfl]
  simp only [hp, Option.isSome_none, Bool.false_eq_true, and_false, if_false, hkE,
    false_and]
  rw [heqT]

/-! ## Concrete fixtures shared by witnesses and counterexamples -/

/-- Default module configuration (no model overrides set). -/
def demoCfg : ORCfg := ⟨none, none, none, none⟩

/-- Fresh network state. -/
def demoSt : NetState := ⟨0, []⟩

/-- Fresh metrics. -/
def demoMs : Metrics := ⟨0, 0, 0, 0, 0⟩

/-- A world in which every POST is answered with HTTP 429. -/
def world429 : Nat → HttpOutcome := fun _ => HttpOutcome.resp 429 0 ("x") none 0

/-- One aggregator key, no research/Gemini/local collaborators. -/
def env429 : Env :=
  ⟨none, none, false, ["k"], Except.error ("na"), Except.error ("na"), Except.error ("na")⟩

/-- A neutral payload template. -/
def demoPayload : Payload := ⟨"", [], 1⟩

/-- A raw aggregator payload carrying one choice with content `ok`. -/
def okChoicesPayload : Dict :=
  [("model", JVal.str ("m")),
   ("choices", JVal.arr [JVal.obj [("message", JVal.obj [("content", JVal.str ("ok"))])]])]

/-- A world in which every POST succeeds with `okChoicesPayload`. -/
def worldOK : Nat → HttpOutcome :=
  fun _ => HttpOutcome.resp 200 5 ("body") (some okChoicesPayload) 2

/-- First dispatch at time 0 with an empty cache (temperature 1). -/
def firstCall : GenResult :=
  generate_response demoCfg env429 worldOK ("hello") none 1 0 [] demoSt demoMs

/-- The normalized response the first dispatch produces and caches. -/
def firstResponse : JVal :=
  JVal.obj
    [("model", JVal.str ("m")),
     ("task_type", JVal.str ("general")),
     ("assistant_text", JVal.str ("ok")),
     ("raw", JVal.obj okChoicesPayload)]

/-- Second dispatch, identical request, 10 seconds later, against the state
left by the first. -/
def secondCall : GenResult :=
  generate_response demoCfg env429 worldOK ("hello") none 1 10 firstCall.cache
    firstCall.st firstCall.ms

/-! ## Remaining claim theorems -/

/-- C1.  When every HTTP attempt of a dispatch is answered 429 (and at least
one credential exists), the key rotator fails with the distinguished
`RateLimitExhaustedError`, the model-fallback coordinator propagates that same
distinguished kind, and `generate_response` converts it into the returned
normalized guidance response — the fixed `GUIDANCE_TEXT` message — instead of
raising. -/
theorem rate_limit_aggregation_spec (cfg : ORCfg) (env : Env)
    (world : Nat → HttpOutcome) (prompt : String) (img : Option String)
    (temp : Rat) (now : Nat) (payload : Payload) (st : NetState) (ms : Metrics)
    (hk : env.apiKeys ≠ []) (hw : ∀ n, statusOf (world n) = some 429)
    (hp : env.perplexityKey = none) :
    (∃ m, (request_with_rotation world payload env.apiKeys 1 5 st ms).1 =
        Except.error (RouterError.rateLimitExhausted m)) ∧
    (∃ m, (try_models_with_fallback world (modelsFor cfg (classify_task prompt img))
        payload env.apiKeys st ms).out =
          Except.error (RouterError.rateLimitExhausted m)) ∧
    (generate_response cfg env world prompt img temp now [] st ms).out =
      Except.ok (guidanceResponse
        ((modelsFor cfg (classify_task prompt img)).headD DEFAULT_FALLBACK_MODEL)
        (classify_task prompt img)) := by
  refine ⟨?_, ?_, ?_⟩
  · obtain ⟨st2, ms2, d, heq, -⟩ :=
      request_with_rotation_429 world hw payload env.apiKeys hk 1 le_rfl 5 st ms
    exact ⟨_, by rw [heq]⟩
  · obtain ⟨m, st2, ms2, disp, heq⟩ :=
      try_models_429 world hw _ (modelsFor_ne_nil cfg _) payload env.apiKeys hk st ms
    exact ⟨m, by rw [heq]⟩
  · obtain ⟨st2, ms2, heq⟩ :=
      generate_response_429 cfg env world hw prompt img temp now st ms hk hp
    rw [heq]

/-- Witness for C1: every attempt 429, one key, prompt `hi`. -/
theorem rate_limit_aggregation_spec_witness :
    (∃ m, (request_with_rotation world429 demoPayload env429.apiKeys 1 5 demoSt demoMs).1 =
        Except.error (RouterError.rateLimitExhausted m)) ∧
    (∃ m, (try_models_with_fallback world429
        (modelsFor demoCfg (classify_task ("hi") none)) demoPayload env429.apiKeys
        demoSt demoMs).out = Except.error (RouterError.rateLimitExhausted m)) ∧
    (generate_response demoCfg env429 world429 ("hi") none 1 0 [] demoSt demoMs).out =
      Except.ok (guidanceResponse
        ((modelsFor demoCfg (classify_task ("hi") none)).headD DEFAULT_FALLBACK_MODEL)
        (classify_task ("hi") none)) :=
  rate_limit_aggregation_spec demoCfg env429 world429 ("hi") none 1 0 demoPayload
    demoSt demoMs (by decide) (fun n => rfl) rfl

theorem tmLoop_single_dispatched (world : Nat → HttpOutcome) (payload : Payload)
    (keys : List String) (totalLen : Nat) (b : String) (st : NetState)
    (ms : Metrics) (le : Option String) (rlo : Bool) (disp : List String) :
    (tmLoop world payload keys totalLen [b] st ms le rlo disp).dispatched =
      disp ++ [b] := by
  show (match request_with_rotation world { payload with model := b } keys 1 5 st ms with
    | (Except.ok d, st, ms) => (⟨Except.ok d, st, ms, disp ++ [b]⟩ : TMResult)
    | (Except.error e2, st, ms) =>
      let errText := RouterError.msg e2
      let lastError := some errText
      let rateLimitOnly := rlo && pyIn "429" errText
      if pyIn "429" errText && decide (1 < totalLen) then
        tmLoop world payload keys totalLen [] st ms lastError rateLimitOnly (disp ++ [b])
      else ⟨Except.error e2, st, ms, disp ++ [b]⟩).dispatched = disp ++ [b]
  rcases request_with_rotation world { payload with model := b } keys 1 5 st ms with
    ⟨out2, stB, msB⟩
  cases out2 with
  | ok d => rfl
  | error e2 =>
    show (if (pyIn "429" (RouterError.msg e2) && decide (1 < totalLen)) = true then
        tmLoop world payload keys totalLen [] stB msB (some (RouterError.msg e2))
          (rlo && pyIn "429" (RouterError.msg e2)) (disp ++ [b])
      else ⟨Except.error e2, stB, msB, disp ++ [b]⟩).dispatched = disp ++ [b]
    split
    · rfl
    · rfl

/-- C2.  For a candidate list `[A, B]` over a fixed pool: if dispatching `A`
fails with an error whose text contains `429`, the coordinator goes on to
dispatch `B` (ghost trace `[A, B]`); if `A` fails with a non-429 error, the
coordinator re-raises that very error immediately and never dispatches `B`
(ghost trace `[A]`). -/
theorem fallback_ordering_spec (world : Nat → HttpOutcome) (A B : String)
    (payload : Payload) (keys : List String) (st : NetState) (ms : Metrics)
    (e : RouterError) (st1 : NetState) (ms1 : Metrics)
    (hA : request_with_rotation world { payload with model := A } keys 1 5 st ms =
      (Except.error e, st1, ms1)) :
    (pyIn "429" (RouterError.msg e) = true →
      (try_models_with_fallback world [A, B] payload keys st ms).dispatched = [A, B]) ∧
    (pyIn "429" (RouterError.msg e) = false →
      (try_models_with_fallback world [A, B] payload keys st ms).out = Except.error e ∧
      (try_models_with_fallback world [A, B] payload keys st ms).dispatched = [A]) := by
  have step1 : try_models_with_fallback world [A, B] payload keys st ms =
      (let errText := RouterError.msg e
       let lastError := some errText
       let rateLimitOnly := true && pyIn "429" errText
       if pyIn "429" errText && decide (1 < ([A, B] : List String).length) then
         tmLoop world payload keys ([A, B] : List String).length [B] st1 ms1 lastError
           rateLimitOnly ([] ++ [A])
       else ⟨Except.error e, st1, ms1, [] ++ [A]⟩) := by
    show (match request_with_rotation world { payload with model := A } keys 1 5 st ms with
      | (Except.ok d, st, ms) => (⟨Except.ok d, st, ms, [] ++ [A]⟩ : TMResult)
      | (Except.error e, st, ms) =>
        let errText := RouterError.msg e
        let lastError := some errText
        let rateLimitOnly := true && pyIn "429" errText
        if pyIn "429" errText && decide (1 < ([A, B] : List String).length) then
          tmLoop world payload keys ([A, B] : List String).length [B] st ms lastError
            rateLimitOnly ([] ++ [A])
        else ⟨Except.error e, st, ms, [] ++ [A]⟩) = _
    rw [hA]
  constructor
  · intro h429
    rw [step1]
    have hc : (pyIn "429" (RouterError.msg e) &&
        decide (1 < ([A, B] : List String).length)) = true := by
      rw [h429]; rfl
    show (if (pyIn "429" (RouterError.msg e) &&
          decide (1 < ([A, B] : List String).length)) = true then
        tmLoop world payload keys ([A, B] : List String).length [B] st1 ms1
          (some (RouterError.msg e)) (true && pyIn "429" (RouterError.msg e)) ([] ++ [A])
      else ⟨Except.error e, st1, ms1, [] ++ [A]⟩).dispatched = [A, B]
    rw [if_pos hc, tmLoop_single_dispatched]
    rfl
  · intro h429
    rw [step1]
    simp only [h429, Bool.false_and, Bool.and_false, Bool.false_eq_true, if_false]
    exact ⟨trivial, rfl⟩

/-- Witness for C2: with every attempt 429, dispatching `[A, B]` attempts `B`
after `A`. -/
theorem fallback_ordering_spec_witness :
    (try_models_with_fallback world429 ["A", "B"] demoPayload ["k"] demoSt demoMs).dispatched =
      ["A", "B"] :=
  (fallback_ordering_spec world429 ("A") ("B") demoPayload ["k"] demoSt demoMs
    (RouterError.rateLimitExhausted
      ("Rate limited across all keys. Attempts: key 1 attempt 1 -> 429 : x"))
    ⟨1, ["A"]⟩ ⟨1, 0, 1, 0, 0⟩ rfl).1 (by decide)

/-- C3 (counterexample).  The claim says the synthesized rate-limit guidance
response is stored in the response cache before being returned; but in a
dispatch where every attempt is 429, `generate_response` returns a truthy
response while the cache stays empty — nothing was stored under any key. -/
theorem guidance_not_cached_cex :
    (generate_response demoCfg env429 world429 ("hi") none 1 0 [] demoSt demoMs).cache = [] ∧
    (match (generate_response demoCfg env429 world429 ("hi") none 1 0 [] demoSt demoMs).out with
     | Except.ok r => JVal.truthy r
     | Except.error _ => false) = true :=
  ⟨rfl, rfl⟩

/-- C3 (amended).  On rate-limit exhaustion `generate_response` synthesizes
and returns the guidance response, whose raw payload marks the
`rate_limited` error kind — but, unlike every other success path, it returns
WITHOUT storing it in the response cache: the cache comes back unchanged, so
a repeated identical prompt re-hits upstream. -/
theorem guidance_not_cached_spec (cfg : ORCfg) (env : Env)
    (world : Nat → HttpOutcome) (prompt : String) (img : Option String)
    (temp : Rat) (now : Nat) (st : NetState) (ms : Metrics)
    (hk : env.apiKeys ≠ []) (hw : ∀ n, statusOf (world n) = some 429)
    (hp : env.perplexityKey = none) :
    ∃ st2 ms2,
      generate_response cfg env world prompt img temp now [] st ms =
        ⟨Except.ok (guidanceResponse
            ((modelsFor cfg (classify_task prompt img)).headD DEFAULT_FALLBACK_MODEL)
            (classify_task prompt img)), [], st2, ms2⟩ ∧
      jvGet (guidanceResponse
          ((modelsFor cfg (classify_task prompt img)).headD DEFAULT_FALLBACK_MODEL)
          (classify_task prompt img)) ("raw") =
        some (JVal.obj [("error", JVal.str ("rate_limited"))]) := by
  obtain ⟨st2, ms2, heq⟩ :=
    generate_response_429 cfg env world hw prompt img temp now st ms hk hp
  exact ⟨st2, ms2, heq, rfl⟩

/-- Witness for C3's amended theorem at the concrete all-429 scenario. -/
theorem guidance_not_cached_spec_witness :
    ∃ st2 ms2,
      generate_response demoCfg env429 world429 ("hi") none 1 0 [] demoSt demoMs =
        ⟨Except.ok (guidanceResponse
            ((modelsFor demoCfg (classify_task ("hi") none)).headD DEFAULT_FALLBACK_MODEL)
            (classify_task ("hi") none)), [], st2, ms2⟩ ∧
      jvGet (guidanceResponse
          ((modelsFor demoCfg (classify_task ("hi") none)).headD DEFAULT_FALLBACK_MODEL)
          (classify_task ("hi") none)) ("raw") =
        some (JVal.obj [("error", JVal.str ("rate_limited"))]) :=
  guidance_not_cached_spec demoCfg env429 world429 ("hi") none 1 0 demoSt demoMs
    (by decide) (fun n => rfl) rfl

/-- C5 (counterexample).  The claim says a `cached` flag in the result
distinguishes the cached second response from the fresh first one.  In the
concrete two-call scenario the second call returns a result equal to the
first call's result, neither carries any `cached` key, and across both calls
exactly one upstream POST was issued — so the flag does not exist and nothing
distinguishes the two responses. -/
theorem cache_idempotence_cex :
    secondCall.out = firstCall.out ∧
    (match firstCall.out with
     | Except.ok r => jvHasKey r ("cached")
     | Except.error _ => true) = false ∧
    secondCall.ms.attempts = 1 ∧ secondCall.st.n = 1 :=
  ⟨rfl, rfl, rfl, rfl⟩

/-- C5 (amended).  A second `generate_response` call with identical
(prompt, image, temperature), hitting the entry the first call stored within
the TTL, issues no upstream call at all (network state and metrics come back
untouched) and returns exactly the stored response; the result shape carries
no `cached` flag, so cached and fresh responses are indistinguishable. -/
theorem cache_idempotence_spec (cfg : ORCfg) (env : Env)
    (world : Nat → HttpOutcome) (prompt : String) (img : Option String)
    (temp : Rat) (now2 : Nat) (cache1 : Cache) (st1 : NetState) (ms1 : Metrics)
    (r : JVal) (entry : CacheEntry)
    (h1 : cacheFind cache1 (generate_cache_key prompt img (classify_task prompt img)) =
      some entry)
    (h2 : entry.response = r) (h3 : now2 - entry.timestamp < CACHE_TTL)
    (h4 : JVal.truthy r = true) :
    generate_response cfg env world prompt img temp now2 cache1 st1 ms1 =
      ⟨Except.ok r, cache1, st1, ms1⟩ := by
  subst h2
  simp only [generate_response, get_cached_response, h1]
  rw [if_pos h3]
  simp [h4]

/-- Witness for C5's amended theorem: the second concrete call returns the
first call's normalized response and leaves cache, network state and metrics
unchanged. -/
theorem cache_idempotence_spec_witness :
    generate_response demoCfg env429 worldOK ("hello") none 1 10 firstCall.cache
      firstCall.st firstCall.ms =
      ⟨Except.ok firstResponse, firstCall.cache, firstCall.st, firstCall.ms⟩ :=
  cache_idempotence_spec demoCfg env429 worldOK ("hello") none 1 10 firstCall.cache
    firstCall.st firstCall.ms firstResponse ⟨firstResponse, 0⟩ rfl rfl (by decide) rfl

/-- C9.  `generate_cache_key` takes only (prompt, image reference, task
category) — temperature is not an argument — so a dispatch at temperature
`t2` that runs within the TTL of an identical-prompt dispatch made at
temperature `t1` finds the `t1` entry under the same key and returns the
cached response produced at `t1`, with no upstream call. -/
theorem cache_key_ignores_temperature_spec (cfg : ORCfg) (env : Env)
    (world : Nat → HttpOutcome) (prompt : String) (img : Option String)
    (t1 t2 : Rat) (now1 now2 : Nat) (cacheA : Cache) (stA : NetState)
    (msA : Metrics) (r : JVal) (c1 : Cache) (st1 : NetState) (ms1 : Metrics)
    (entry : CacheEntry)
    (hfirst : generate_response cfg env world prompt img t1 now1 cacheA stA msA =
      ⟨Except.ok r, c1, st1, ms1⟩)
    (h1 : cacheFind c1 (generate_cache_key prompt img (classify_task prompt img)) =
      some entry)
    (h2 : entry.response = r) (h3 : now2 - entry.timestamp < CACHE_TTL)
    (h4 : JVal.truthy r = true) :
    generate_response cfg env world prompt img t2 now2 c1 st1 ms1 =
      ⟨Except.ok r, c1, st1, ms1⟩ := by
  subst h2
  simp only [generate_response, get_cached_response, h1]
  rw [if_pos h3]
  simp [h4]

/-- Witness for C9: the first call ran at temperature 1; a call at
temperature 2, ten seconds later, returns the cached response produced at
temperature 1. -/
theorem cache_key_ignores_temperature_spec_witness :
    generate_response demoCfg env429 worldOK ("hello") none 2 10 firstCall.cache
      firstCall.st firstCall.ms =
      ⟨Except.ok firstResponse, firstCall.cache, firstCall.st, firstCall.ms⟩ :=
  cache_key_ignores_temperature_spec demoCfg env429 worldOK ("hello") none 1 2 0 10
    [] demoSt demoMs firstResponse firstCall.cache firstCall.st firstCall.ms
    ⟨firstResponse, 0⟩ rfl rfl rfl (by decide) rfl

/-! ## C6 fixtures and theorem -/

/-- Gemini environment: primary key set, no overrides (preferred family
defaults to `gemini-2.5`). -/
def gemEnvDemo : GeminiEnv := ⟨some ("g"), none, none, none, none⟩

/-- Gemini world: the first POST is answered 404; any further POST would
succeed with a well-formed payload. -/
def gemWorldDemo : Nat → GOutcome := fun n =>
  if n == 0 then GOutcome.resp 404 ("not found") none
  else GOutcome.resp 200 ("ok")
    (some [("candidates", JVal.arr [JVal.obj [("content", JVal.obj
      [("parts", JVal.arr [JVal.obj [("text", JVal.str ("hi"))]])])]])])

/-- The C6 dispatch: single candidate `gemini-2.0-flash`, listing endpoint
returns `models/gemini-2.5-flash`. -/
def gemRunDemo :
    Except RouterError JVal × List String × Option (Nat × List String) × GemState :=
  generate_gemini_response gemEnvDemo gemWorldDemo (some ["models/gemini-2.5-flash"])
    ("hey") none 1 ("gemini-2.0-flash") false (Except.ok ()) none 0 ⟨0, []⟩

/-- C6 (code bug).  At the failing input the 404 discovery appends the
preferred-family model `gemini-2.5-flash` to `candidate_models`, but the
dispatch loop iterates `list(candidate_models)` — the snapshot taken at loop
entry — so the appended candidate is never POSTed and the call raises
`GeminiError`, even though the very next POST (`gemWorldDemo 1`) would have
been a 200 success.  The ghost POST log shows only the original candidate. -/
theorem gemini_discovery_snapshot_bug :
    (match gemRunDemo.1 with
     | Except.error (RouterError.geminiError _) => true
     | _ => false) = true ∧
    gemRunDemo.2.1 = ["gemini-2.0-flash", "gemini-2.5-flash"] ∧
    gemRunDemo.2.2.2.postLog = ["gemini-2.0-flash"] ∧
    (match gemWorldDemo 1 with
     | GOutcome.resp 200 _ (some _) => true
     | _ => false) = true :=
  ⟨rfl, rfl, rfl, rfl⟩
